import Mathlib

/-!
SchemeSmob: the scheme small-object bridge of opencog

A shallow embedding of `opencog/guile/SchemeSmob.cc`:

* `equalp_misc`, the equality hook of the single `opencog-misc` smob type,
  which dispatches on the flag bits of the smob;
* `init_smob_type`, `register_procs` and `init`, the one-time set-up that
  registers the smob type and the table of `cog-...` primitives.

The host runtime (libguile) and the native classes (`AttentionValue`,
`TruthValue`, `Handle`, `AtomSpace`) are not part of the file.  What the code
asks of them is taken as a parameter (`Native`, `CogTags`) or kept as explicit
host state (`Host`).
-/

namespace SchemeSmob

/-! ## Host values -/

/-- Host values, as far as the bridge looks at them.  A smob is a cell with
the number of its smob type, its 16 flag bits and one data word. -/
inductive SCM where
  | bool (b : Bool)
  | int (n : Int)
  | fluid (id : Nat)
  | smob (tc : Nat) (flags : Nat) (data : Nat)
  | other (id : Nat)
  deriving DecidableEq

/-- The host constant `SCM_BOOL_T`. -/
def SCM_BOOL_T : SCM := SCM.bool true

/-- The host constant `SCM_BOOL_F`. -/
def SCM_BOOL_F : SCM := SCM.bool false

/-- The values of the enumeration `COG_AS`, `COG_AV`, `COG_EXTEND`,
`COG_HANDLE`, `COG_TV` of `SchemeSmob.h`.  The header is not part of the
source at hand, so the five numbers are a parameter.  They are labels of one
C++ `switch` next to `case 0`, hence pairwise distinct and nonzero. -/
structure CogTags where
  COG_AS : Nat
  COG_AV : Nat
  COG_EXTEND : Nat
  COG_HANDLE : Nat
  COG_TV : Nat
  labels_nodup : [0, COG_AS, COG_AV, COG_EXTEND, COG_HANDLE, COG_TV].Nodup

/-- What `equalp_misc` calls outside of its own file.

* `scm_equal_p` is the generic equality of the host; it may signal an error
  of type `E`.
* `rawFlags`, `rawData` are what the accessor macros read off a value that is
  not a smob (the macros do not check).
* `avAt p`, `tvAt p` are the native objects that the pointers `p` refer to,
  `avEq`, `tvEq` the `operator==` of `AttentionValue` and `TruthValue`.
* `scm_to_handle` and `handleEq` are the conversion to `Handle` and the
  `operator==` of `Handle`. -/
structure Native (AV TV H E : Type) where
  scm_equal_p : SCM → SCM → Except E SCM
  rawFlags : SCM → Nat
  rawData : SCM → Nat
  avAt : Nat → AV
  avEq : AV → AV → Bool
  tvAt : Nat → TV
  tvEq : TV → TV → Bool
  scm_to_handle : SCM → H
  handleEq : H → H → Bool

/-- The host test `SCM_SMOB_PREDICATE (tag, x)`: `x` is a smob of type `tag`. -/
def SCM_SMOB_PREDICATE (tag : Nat) : SCM → Bool
  | SCM.smob tc _ _ => tc == tag
  | _ => false

/-- The accessor `SCM_SMOB_FLAGS (x)`. -/
def SCM_SMOB_FLAGS {AV TV H E : Type} (N : Native AV TV H E) : SCM → Nat
  | SCM.smob _ flags _ => flags
  | x => N.rawFlags x

/-- The accessor `SCM_SMOB_DATA (x)`. -/
def SCM_SMOB_DATA {AV TV H E : Type} (N : Native AV TV H E) : SCM → Nat
  | SCM.smob _ _ data => data
  | x => N.rawData x

/-- The function `SchemeSmob::equalp_misc (SCM a, SCM b)`. -/
def equalp_misc {AV TV H E : Type} (T : CogTags) (N : Native AV TV H E)
    (cog_misc_tag : Nat) (a b : SCM) : Except E SCM :=
  -- If they are not something we know about, let scheme sort it out.
  if !(SCM_SMOB_PREDICATE cog_misc_tag a) then
    N.scm_equal_p a b
  else
    -- If the types do not match, they cannot be equal.
    let ta := SCM_SMOB_FLAGS N a
    let tb := SCM_SMOB_FLAGS N b
    if ta ≠ tb then
      Except.ok SCM_BOOL_F
    else if ta = 0 then
      Except.ok SCM_BOOL_F
    else if ta = T.COG_AS then
      let as := SCM_SMOB_DATA N a
      let bs := SCM_SMOB_DATA N b
      if as = bs then Except.ok SCM_BOOL_T else Except.ok SCM_BOOL_F
    else if ta = T.COG_AV then
      let av := SCM_SMOB_DATA N a
      let bv := SCM_SMOB_DATA N b
      if av = bv then Except.ok SCM_BOOL_T
      else if N.avEq (N.avAt av) (N.avAt bv) then Except.ok SCM_BOOL_T
      else Except.ok SCM_BOOL_F
    else if ta = T.COG_EXTEND then
      let av := SCM_SMOB_DATA N a
      let bv := SCM_SMOB_DATA N b
      if av = bv then Except.ok SCM_BOOL_T else Except.ok SCM_BOOL_F
    else if ta = T.COG_HANDLE then
      let ha := N.scm_to_handle a
      let hb := N.scm_to_handle b
      if N.handleEq ha hb then Except.ok SCM_BOOL_T else Except.ok SCM_BOOL_F
    else if ta = T.COG_TV then
      let av := SCM_SMOB_DATA N a
      let bv := SCM_SMOB_DATA N b
      if av = bv then Except.ok SCM_BOOL_T
      else if N.tvEq (N.tvAt av) (N.tvAt bv) then Except.ok SCM_BOOL_T
      else Except.ok SCM_BOOL_F
    else
      Except.ok SCM_BOOL_F

/-- The flag value `f` is one of the five tags of the enumeration. -/
def ValidTag (T : CogTags) (f : Nat) : Prop :=
  f = T.COG_AS ∨ f = T.COG_AV ∨ f = T.COG_EXTEND ∨ f = T.COG_HANDLE ∨ f = T.COG_TV

/-- A concrete enumeration, used to evaluate the definitions. -/
def tags15 : CogTags :=
  { COG_AS := 1, COG_AV := 2, COG_EXTEND := 3, COG_HANDLE := 4, COG_TV := 5,
    labels_nodup := by decide }

/-- A concrete native side, used to evaluate the definitions: every native
object is a number, the object at address `p` is `p / 10`, native equality is
equality of numbers, a handle is the data word of the smob. -/
def natNative : Native Nat Nat Nat Unit :=
  { scm_equal_p := fun a b => Except.ok (SCM.bool (decide (a = b))),
    rawFlags := fun _ => 0,
    rawData := fun _ => 0,
    avAt := fun p => p / 10,
    avEq := fun x y => x == y,
    tvAt := fun p => p / 10,
    tvEq := fun x y => x == y,
    scm_to_handle := fun x => match x with
      | SCM.smob _ _ d => d
      | _ => 0,
    handleEq := fun x y => x == y }

/-! ## The Handle of the specification -/

/-- Modelled from the spec: the native `Handle` value type and its
`operator==`, which `equalp_misc` uses and which are absent from the source at
hand.  The specification describes the payload of a `Handle` object as "a
small value type (an identifier pair: entity id + originating workspace
reference)" and its equality as "value-equality of the (entity id, workspace)
pair". -/
structure Handle where
  entity : Nat
  workspace : Nat
  deriving DecidableEq

/-- Modelled from the spec: `Handle::operator==`, absent from the source at
hand: "value-equality of the (entity id, workspace) pair". -/
def Handle.eq (x y : Handle) : Bool :=
  x.entity == y.entity && x.workspace == y.workspace

/-- A concrete conversion, used to evaluate the definitions: the data word of
a smob is the address of a handle, and the handles at the addresses `100` and
`200` both name entity `7` of workspace `1`. -/
def handleAt (x : SCM) : Handle :=
  match x with
  | SCM.smob _ _ 100 => { entity := 7, workspace := 1 }
  | SCM.smob _ _ 200 => { entity := 7, workspace := 1 }
  | SCM.smob _ _ 300 => { entity := 7, workspace := 2 }
  | SCM.smob _ _ 400 => { entity := 8, workspace := 1 }
  | _ => { entity := 0, workspace := 0 }

/-- A concrete native side whose handles are those of the specification, used
to evaluate the definitions. -/
def specNative : Native Nat Nat Handle Unit :=
  { scm_equal_p := natNative.scm_equal_p,
    rawFlags := natNative.rawFlags,
    rawData := natNative.rawData,
    avAt := natNative.avAt,
    avEq := natNative.avEq,
    tvAt := natNative.tvAt,
    tvEq := natNative.tvEq,
    scm_to_handle := handleAt,
    handleEq := Handle.eq }

/-- The relation `eq` is an equivalence relation. -/
def IsEquivalence {α : Type} (eq : α → α → Bool) : Prop :=
  (∀ x, eq x x = true) ∧ (∀ x y, eq x y = true → eq y x = true) ∧
    (∀ x y z, eq x y = true → eq y z = true → eq x z = true)

/-! ## Host state and initialisation -/

/-- One smob type of the host: its name, the size given at creation, and the
hooks installed on it (named by the C++ function installed). -/
structure SmobType where
  name : String
  size : Nat
  print : Option String
  equalp : Option String
  free : Option String
  deriving DecidableEq

/-- One primitive defined by `scm_c_define_gsubr`: its scheme name, the
numbers of required and optional arguments, the rest flag and the C++
function it runs. -/
structure Gsubr where
  name : String
  req : Nat
  opt : Nat
  rst : Nat
  fcn : String
  deriving DecidableEq

/-- The part of the host state that the set-up writes: the smob types in the
order of their creation (the tag of a type is its position), the
definitions of primitives in the order they were made, the number of fluids
created so far, and the objects made permanent. -/
structure Host where
  smobs : List SmobType
  gsubrs : List Gsubr
  fluids : Nat
  permanent : List SCM
  deriving DecidableEq

/-- The static members of `SchemeSmob` (`atomspace_fluid` is declared in the
header), together with the host state. -/
structure State where
  cog_misc_tag : Nat
  is_inited : Bool
  _radix_ten : SCM
  atomspace_fluid : SCM
  host : Host
  deriving DecidableEq

/-- The host call `scm_make_smob_type (name, size)`: a new smob type without
hooks; its tag is returned. -/
def scm_make_smob_type (name : String) (size : Nat) (h : Host) : Nat × Host :=
  (h.smobs.length,
   { h with smobs := h.smobs ++
       [{ name := name, size := size, print := none, equalp := none, free := none }] })

/-- The host call `scm_set_smob_print (tag, f)`. -/
def scm_set_smob_print (tag : Nat) (f : String) (h : Host) : Host :=
  { h with smobs := h.smobs.modify (fun t => { t with print := some f }) tag }

/-- The host call `scm_set_smob_equalp (tag, f)`. -/
def scm_set_smob_equalp (tag : Nat) (f : String) (h : Host) : Host :=
  { h with smobs := h.smobs.modify (fun t => { t with equalp := some f }) tag }

/-- The host call `scm_set_smob_free (tag, f)`. -/
def scm_set_smob_free (tag : Nat) (f : String) (h : Host) : Host :=
  { h with smobs := h.smobs.modify (fun t => { t with free := some f }) tag }

/-- The host call `scm_c_define_gsubr (name, req, opt, rst, fcn)`: one more
definition of a primitive.  A name is looked up from the latest definition
backwards (`lookupGsubr`), so that a later definition of a name replaces an
earlier one. -/
def scm_c_define_gsubr (name : String) (req opt rst : Nat) (fcn : String)
    (h : Host) : Host :=
  { h with gsubrs := h.gsubrs ++
      [{ name := name, req := req, opt := opt, rst := rst, fcn := fcn }] }

/-- The primitive that the name `name` is bound to in the host. -/
def lookupGsubr (h : Host) (name : String) : Option Gsubr :=
  h.gsubrs.reverse.find? (fun g => g.name == name)

/-- The host call `scm_make_fluid ()`: a new fluid. -/
def scm_make_fluid (h : Host) : SCM × Host :=
  (SCM.fluid h.fluids, { h with fluids := h.fluids + 1 })

/-- The host call `scm_permanent_object (x)`: `x` is protected from
collection and returned. -/
def scm_permanent_object (x : SCM) (h : Host) : SCM × Host :=
  (x, { h with permanent := h.permanent ++ [x] })

/-- The host call `scm_from_int8 (n)`. -/
def scm_from_int8 (n : Int) : SCM := SCM.int n

/-- The function `SchemeSmob::init_smob_type ()`; `sizeof_bits` is
`sizeof (scm_t_bits)`. -/
def init_smob_type (sizeof_bits : Nat) (s : State) : State :=
  -- A SMOB type for everything, including atoms.
  let r := scm_make_smob_type "opencog-misc" sizeof_bits s.host
  let s := { s with cog_misc_tag := r.1, host := r.2 }
  let s := { s with host := scm_set_smob_print s.cog_misc_tag "print_misc" s.host }
  let s := { s with host := scm_set_smob_equalp s.cog_misc_tag "equalp_misc" s.host }
  let s := { s with host := scm_set_smob_free s.cog_misc_tag "free_misc" s.host }
  s

/-- The function `SchemeSmob::register_procs ()`. -/
def register_procs (h : Host) : Host :=
  let h := scm_c_define_gsubr "cog-atom"               1 0 0 "ss_atom" h
  let h := scm_c_define_gsubr "cog-handle"             1 0 0 "ss_handle" h
  let h := scm_c_define_gsubr "cog-undefined-handle"   0 0 0 "ss_undefined_handle" h
  let h := scm_c_define_gsubr "cog-new-node"           2 0 1 "ss_new_node" h
  let h := scm_c_define_gsubr "cog-new-link"           1 0 1 "ss_new_link" h
  let h := scm_c_define_gsubr "cog-node"               2 0 1 "ss_node" h
  let h := scm_c_define_gsubr "cog-link"               1 0 1 "ss_link" h
  let h := scm_c_define_gsubr "cog-delete"             1 0 1 "ss_delete" h
  let h := scm_c_define_gsubr "cog-delete-recursive"   1 0 1 "ss_delete_recursive" h
  let h := scm_c_define_gsubr "cog-purge"              1 0 1 "ss_purge" h
  let h := scm_c_define_gsubr "cog-purge-recursive"    1 0 1 "ss_purge_recursive" h
  let h := scm_c_define_gsubr "cog-atom?"              1 0 1 "ss_atom_p" h
  let h := scm_c_define_gsubr "cog-node?"              1 0 1 "ss_node_p" h
  let h := scm_c_define_gsubr "cog-link?"              1 0 1 "ss_link_p" h
  -- property setters on atoms
  let h := scm_c_define_gsubr "cog-set-av!"            2 0 0 "ss_set_av" h
  let h := scm_c_define_gsubr "cog-set-tv!"            2 0 0 "ss_set_tv" h
  let h := scm_c_define_gsubr "cog-inc-vlti!"          1 0 0 "ss_inc_vlti" h
  let h := scm_c_define_gsubr "cog-dec-vlti!"          1 0 0 "ss_dec_vlti" h
  -- property getters on atoms
  let h := scm_c_define_gsubr "cog-name"               1 0 0 "ss_name" h
  let h := scm_c_define_gsubr "cog-type"               1 0 0 "ss_type" h
  let h := scm_c_define_gsubr "cog-arity"              1 0 0 "ss_arity" h
  let h := scm_c_define_gsubr "cog-incoming-set"       1 0 0 "ss_incoming_set" h
  let h := scm_c_define_gsubr "cog-outgoing-set"       1 0 0 "ss_outgoing_set" h
  let h := scm_c_define_gsubr "cog-tv"                 1 0 0 "ss_tv" h
  let h := scm_c_define_gsubr "cog-av"                 1 0 0 "ss_av" h
  -- Truth-values
  let h := scm_c_define_gsubr "cog-new-stv"            2 0 0 "ss_new_stv" h
  let h := scm_c_define_gsubr "cog-new-ctv"            3 0 0 "ss_new_ctv" h
  let h := scm_c_define_gsubr "cog-new-itv"            3 0 0 "ss_new_itv" h
  let h := scm_c_define_gsubr "cog-tv?"                1 0 0 "ss_tv_p" h
  let h := scm_c_define_gsubr "cog-stv?"               1 0 0 "ss_stv_p" h
  let h := scm_c_define_gsubr "cog-ctv?"               1 0 0 "ss_ctv_p" h
  let h := scm_c_define_gsubr "cog-itv?"               1 0 0 "ss_itv_p" h
  let h := scm_c_define_gsubr "cog-tv->alist"          1 0 0 "ss_tv_get_value" h
  -- Atom Spaces
  let h := scm_c_define_gsubr "cog-new-atomspace"      0 1 0 "ss_new_as" h
  let h := scm_c_define_gsubr "cog-atomspace?"         1 0 0 "ss_as_p" h
  let h := scm_c_define_gsubr "cog-atomspace"          0 0 0 "ss_get_as" h
  let h := scm_c_define_gsubr "cog-set-atomspace!"     1 0 0 "ss_set_as" h
  -- Attention values
  let h := scm_c_define_gsubr "cog-new-av"             3 0 0 "ss_new_av" h
  let h := scm_c_define_gsubr "cog-av?"                1 0 0 "ss_av_p" h
  let h := scm_c_define_gsubr "cog-av->alist"          1 0 0 "ss_av_get_value" h
  -- AttentionalFocus
  let h := scm_c_define_gsubr "cog-af-boundary"        0 0 0 "ss_af_boundary" h
  let h := scm_c_define_gsubr "cog-set-af-boundary!"   1 0 0 "ss_set_af_boundary" h
  let h := scm_c_define_gsubr "cog-af"                 0 0 0 "ss_af" h
  -- ExecutionLinks
  let h := scm_c_define_gsubr "cog-execute!"           1 0 0 "ss_execute" h
  -- Atom types
  let h := scm_c_define_gsubr "cog-get-types"          0 0 0 "ss_get_types" h
  let h := scm_c_define_gsubr "cog-type?"              1 0 0 "ss_type_p" h
  let h := scm_c_define_gsubr "cog-get-subtypes"       1 0 0 "ss_get_subtypes" h
  let h := scm_c_define_gsubr "cog-subtype?"           2 0 0 "ss_subtype_p" h
  -- Iterators
  let h := scm_c_define_gsubr "cog-map-type"           2 0 0 "ss_map_type" h
  h

/-- The function `SchemeSmob::init ()`; `sizeof_bits` is
`sizeof (scm_t_bits)`. -/
def init (sizeof_bits : Nat) (s : State) : State :=
  if !s.is_inited then
    let s := { s with is_inited := true }
    let s := init_smob_type sizeof_bits s
    let s := { s with host := register_procs s.host }
    let r := scm_make_fluid s.host
    let s := { s with atomspace_fluid := r.1, host := r.2 }
    let r := scm_permanent_object s.atomspace_fluid s.host
    let s := { s with atomspace_fluid := r.1, host := r.2 }
    let s := { s with _radix_ten := scm_from_int8 10 }
    s
  else
    s

/-- The state after `n` calls of `init` in a row. -/
def initTimes (sizeof_bits : Nat) : Nat → State → State
  | 0, s => s
  | n + 1, s => initTimes sizeof_bits n (init sizeof_bits s)

/-- A host in which nothing has been created or defined yet. -/
def emptyHost : Host :=
  { smobs := [], gsubrs := [], fluids := 0, permanent := [] }

/-- The primitives that one run of `register_procs` defines, in the order of
the calls. -/
def registered : List Gsubr := (register_procs emptyHost).gsubrs

/-- A concrete state in which `init` has not run yet: the host already has one
smob type, one primitive and two fluids of some other subsystem. -/
def freshState : State :=
  { cog_misc_tag := 0,
    is_inited := false,
    _radix_ten := SCM.other 0,
    atomspace_fluid := SCM.other 0,
    host :=
      { smobs := [{ name := "other-smob", size := 8, print := none, equalp := none,
                    free := none }],
        gsubrs := [{ name := "car", req := 1, opt := 0, rst := 0, fcn := "scm_car" }],
        fluids := 2,
        permanent := [] } }

/-! ## The table of section 6 of the specification -/

/-- One row entry of the table of external interfaces: a name with its
numbers of required and optional arguments and its rest flag. -/
structure TableRow where
  name : String
  required : Nat
  optional : Nat
  rest : Bool
  deriving DecidableEq

/-- The table of section 6 of the specification, written out name by name in
the order of the rows (a row that lists several names gives one entry per
name). -/
def specTable : List TableRow :=
  [
    { name := "atom",              required := 1, optional := 0, rest := false },
    { name := "handle",            required := 1, optional := 0, rest := false },
    { name := "undefined-handle",  required := 0, optional := 0, rest := false },
    { name := "new-node",          required := 2, optional := 0, rest := true },
    { name := "new-link",          required := 1, optional := 0, rest := true },
    { name := "node",              required := 2, optional := 0, rest := true },
    { name := "link",              required := 1, optional := 0, rest := true },
    { name := "delete",            required := 1, optional := 0, rest := true },
    { name := "delete-recursive",  required := 1, optional := 0, rest := true },
    { name := "purge",             required := 1, optional := 0, rest := true },
    { name := "purge-recursive",   required := 1, optional := 0, rest := true },
    { name := "atom?",             required := 1, optional := 0, rest := true },
    { name := "node?",             required := 1, optional := 0, rest := true },
    { name := "link?",             required := 1, optional := 0, rest := true },
    { name := "set-av!",           required := 2, optional := 0, rest := false },
    { name := "set-tv!",           required := 2, optional := 0, rest := false },
    { name := "inc-vlti!",         required := 1, optional := 0, rest := false },
    { name := "dec-vlti!",         required := 1, optional := 0, rest := false },
    { name := "name",              required := 1, optional := 0, rest := false },
    { name := "type",              required := 1, optional := 0, rest := false },
    { name := "arity",             required := 1, optional := 0, rest := false },
    { name := "incoming-set",      required := 1, optional := 0, rest := false },
    { name := "outgoing-set",      required := 1, optional := 0, rest := false },
    { name := "tv",                required := 1, optional := 0, rest := false },
    { name := "av",                required := 1, optional := 0, rest := false },
    { name := "new-stv",           required := 2, optional := 0, rest := false },
    { name := "new-ctv",           required := 3, optional := 0, rest := false },
    { name := "new-itv",           required := 3, optional := 0, rest := false },
    { name := "tv?",               required := 1, optional := 0, rest := false },
    { name := "stv?",              required := 1, optional := 0, rest := false },
    { name := "ctv?",              required := 1, optional := 0, rest := false },
    { name := "itv?",              required := 1, optional := 0, rest := false },
    { name := "tv->alist",         required := 1, optional := 0, rest := false },
    { name := "new-atomspace",     required := 0, optional := 1, rest := false },
    { name := "atomspace?",        required := 1, optional := 0, rest := false },
    { name := "set-atomspace!",    required := 1, optional := 0, rest := false },
    { name := "atomspace",         required := 0, optional := 0, rest := false },
    { name := "new-av",            required := 3, optional := 0, rest := false },
    { name := "av?",               required := 1, optional := 0, rest := false },
    { name := "av->alist",         required := 1, optional := 0, rest := false },
    { name := "af-boundary",       required := 0, optional := 0, rest := false },
    { name := "set-af-boundary!",  required := 1, optional := 0, rest := false },
    { name := "af",                required := 0, optional := 0, rest := false },
    { name := "execute!",          required := 1, optional := 0, rest := false },
    { name := "get-types",         required := 0, optional := 0, rest := false },
    { name := "type?",             required := 1, optional := 0, rest := false },
    { name := "get-subtypes",      required := 1, optional := 0, rest := false },
    { name := "subtype?",          required := 2, optional := 0, rest := false },
    { name := "map-type",          required := 2, optional := 0, rest := false } ]

/-- The contract that a registered primitive declares: its name and arity
triple, the rest flag being set when the last argument of
`scm_c_define_gsubr` is nonzero. -/
def Gsubr.contract (g : Gsubr) : TableRow :=
  { name := g.name, required := g.req, optional := g.opt, rest := g.rst != 0 }

/-- The claim that the registration is the table as it stands: every entry of
the table is the contract of a registered primitive, and the contract of
every registered primitive is an entry of the table. -/
def MatchesTable (gs : List Gsubr) (table : List TableRow) : Prop :=
  (∀ r ∈ table, ∃ g ∈ gs, g.contract = r) ∧ (∀ g ∈ gs, g.contract ∈ table)

/-- The name by which the code registers the operation that the table calls
`r.name`: the table name after `cog-`. -/
def TableRow.cog (r : TableRow) : TableRow :=
  { r with name := "cog-" ++ r.name }

/-- Whether a registration is the table as it stands can be computed. -/
instance MatchesTable.decidable (gs : List Gsubr) (table : List TableRow) :
    Decidable (MatchesTable gs table) := by
  unfold MatchesTable
  infer_instance

/-- The smob type `opencog-misc` once `init_smob_type` has installed the three
hooks on it. -/
def cogMiscType (sizeof_bits : Nat) : SmobType :=
  { name := "opencog-misc", size := sizeof_bits, print := some "print_misc",
    equalp := some "equalp_misc", free := some "free_misc" }

/-! ## Equality of bridge objects -/

/-- On a smob the flags are read off the cell. -/
theorem flags_of_smob {AV TV H E : Type} (N : Native AV TV H E) (tag : Nat) (a : SCM)
    (ha : SCM_SMOB_PREDICATE tag a = true) :
    ∃ f d, a = SCM.smob tag f d ∧ SCM_SMOB_FLAGS N a = f ∧ SCM_SMOB_DATA N a = d := by
  cases a with
  | smob tc f d =>
    have : tc = tag := by simpa [SCM_SMOB_PREDICATE] using ha
    subst this
    exact ⟨f, d, rfl, rfl, rfl⟩
  | bool b => simp [SCM_SMOB_PREDICATE] at ha
  | int n => simp [SCM_SMOB_PREDICATE] at ha
  | fluid i => simp [SCM_SMOB_PREDICATE] at ha
  | other i => simp [SCM_SMOB_PREDICATE] at ha

/-- The labels of the switch are nonzero and pairwise distinct. -/
theorem CogTags.distinct (T : CogTags) :
    (0 ≠ T.COG_AS ∧ 0 ≠ T.COG_AV ∧ 0 ≠ T.COG_EXTEND ∧ 0 ≠ T.COG_HANDLE ∧ 0 ≠ T.COG_TV) ∧
    (T.COG_AS ≠ T.COG_AV ∧ T.COG_AS ≠ T.COG_EXTEND ∧ T.COG_AS ≠ T.COG_HANDLE ∧
      T.COG_AS ≠ T.COG_TV) ∧
    (T.COG_AV ≠ T.COG_EXTEND ∧ T.COG_AV ≠ T.COG_HANDLE ∧ T.COG_AV ≠ T.COG_TV) ∧
    (T.COG_EXTEND ≠ T.COG_HANDLE ∧ T.COG_EXTEND ≠ T.COG_TV) ∧
    T.COG_HANDLE ≠ T.COG_TV := by
  have h := T.labels_nodup
  simp only [List.nodup_cons, List.mem_cons, List.mem_singleton, not_or, List.not_mem_nil,
    not_false_eq_true, List.nodup_nil, and_true] at h
  obtain ⟨⟨h1, h2, h3, h4, h5⟩, ⟨h6, h7, h8, h9⟩, ⟨h10, h11, h12⟩, ⟨h13, h14⟩, h15⟩ := h
  exact ⟨⟨h1, h2, h3, h4, h5⟩, ⟨h6, h7, h8, h9⟩, ⟨h10, h11, h12⟩, ⟨h13, h14⟩, h15⟩

/-- The AtomSpace case of the switch: pointer comparison only. -/
theorem equalp_misc_as {AV TV H E : Type} (T : CogTags) (N : Native AV TV H E)
    (tag da db : Nat) :
    equalp_misc T N tag (SCM.smob tag T.COG_AS da) (SCM.smob tag T.COG_AS db)
      = Except.ok (SCM.bool (decide (da = db))) := by
  obtain ⟨⟨h1, -⟩, -⟩ := T.distinct
  by_cases h : da = db <;>
    simp [equalp_misc, SCM_SMOB_PREDICATE, SCM_SMOB_FLAGS, SCM_SMOB_DATA, SCM_BOOL_T,
      SCM_BOOL_F, h, h1.symm]

/-- The AttentionValue case of the switch: pointer comparison, then native
equality of the objects pointed to. -/
theorem equalp_misc_av {AV TV H E : Type} (T : CogTags) (N : Native AV TV H E)
    (tag da db : Nat) :
    equalp_misc T N tag (SCM.smob tag T.COG_AV da) (SCM.smob tag T.COG_AV db)
      = Except.ok (SCM.bool (decide (da = db) || N.avEq (N.avAt da) (N.avAt db))) := by
  obtain ⟨⟨-, h2, -⟩, ⟨h6, -⟩, -⟩ := T.distinct
  by_cases h : da = db <;> cases hq : N.avEq (N.avAt da) (N.avAt db) <;>
    simp [equalp_misc, SCM_SMOB_PREDICATE, SCM_SMOB_FLAGS, SCM_SMOB_DATA, SCM_BOOL_T,
      SCM_BOOL_F, h, hq, h2.symm, h6.symm]

/-- The Extend case of the switch: pointer comparison only. -/
theorem equalp_misc_extend {AV TV H E : Type} (T : CogTags) (N : Native AV TV H E)
    (tag da db : Nat) :
    equalp_misc T N tag (SCM.smob tag T.COG_EXTEND da) (SCM.smob tag T.COG_EXTEND db)
      = Except.ok (SCM.bool (decide (da = db))) := by
  obtain ⟨⟨-, -, h3, -⟩, ⟨-, h7, -⟩, ⟨h10, -⟩, -⟩ := T.distinct
  by_cases h : da = db <;>
    simp [equalp_misc, SCM_SMOB_PREDICATE, SCM_SMOB_FLAGS, SCM_SMOB_DATA, SCM_BOOL_T,
      SCM_BOOL_F, h, h3.symm, h7.symm, h10.symm]

/-- The Handle case of the switch: native equality of the two handles. -/
theorem equalp_misc_handle {AV TV H E : Type} (T : CogTags) (N : Native AV TV H E)
    (tag da db : Nat) :
    equalp_misc T N tag (SCM.smob tag T.COG_HANDLE da) (SCM.smob tag T.COG_HANDLE db)
      = Except.ok (SCM.bool (N.handleEq
          (N.scm_to_handle (SCM.smob tag T.COG_HANDLE da))
          (N.scm_to_handle (SCM.smob tag T.COG_HANDLE db)))) := by
  obtain ⟨⟨-, -, -, h4, -⟩, ⟨-, -, h8, -⟩, ⟨-, h11, -⟩, ⟨h13, -⟩, -⟩ := T.distinct
  cases hq : N.handleEq (N.scm_to_handle (SCM.smob tag T.COG_HANDLE da))
      (N.scm_to_handle (SCM.smob tag T.COG_HANDLE db)) <;>
    simp [equalp_misc, SCM_SMOB_PREDICATE, SCM_SMOB_FLAGS, SCM_BOOL_T,
      SCM_BOOL_F, hq, h4.symm, h8.symm, h11.symm, h13.symm]

/-- The TruthValue case of the switch: pointer comparison, then native
equality of the objects pointed to. -/
theorem equalp_misc_tv {AV TV H E : Type} (T : CogTags) (N : Native AV TV H E)
    (tag da db : Nat) :
    equalp_misc T N tag (SCM.smob tag T.COG_TV da) (SCM.smob tag T.COG_TV db)
      = Except.ok (SCM.bool (decide (da = db) || N.tvEq (N.tvAt da) (N.tvAt db))) := by
  obtain ⟨⟨-, -, -, -, h5⟩, ⟨-, -, -, h9⟩, ⟨-, -, h12⟩, ⟨-, h14⟩, h15⟩ := T.distinct
  by_cases h : da = db <;> cases hq : N.tvEq (N.tvAt da) (N.tvAt db) <;>
    simp [equalp_misc, SCM_SMOB_PREDICATE, SCM_SMOB_FLAGS, SCM_SMOB_DATA, SCM_BOOL_T,
      SCM_BOOL_F, h, hq, h5.symm, h9.symm, h12.symm, h14.symm, h15.symm]

/-- Two bridge objects whose flags differ are unequal. -/
theorem equalp_misc_ne {AV TV H E : Type} (T : CogTags) (N : Native AV TV H E)
    (tag fa da fb db : Nat) (h : fa ≠ fb) :
    equalp_misc T N tag (SCM.smob tag fa da) (SCM.smob tag fb db)
      = Except.ok (SCM.bool false) := by
  simp [equalp_misc, SCM_SMOB_PREDICATE, SCM_SMOB_FLAGS, SCM_BOOL_F, h]

/-- Two bridge objects with the same flags that are none of the five tags are
unequal. -/
theorem equalp_misc_default {AV TV H E : Type} (T : CogTags) (N : Native AV TV H E)
    (tag f da db : Nat) (h : ¬ ValidTag T f) :
    equalp_misc T N tag (SCM.smob tag f da) (SCM.smob tag f db)
      = Except.ok (SCM.bool false) := by
  simp only [ValidTag, not_or] at h
  obtain ⟨h1, h2, h3, h4, h5⟩ := h
  simp [equalp_misc, SCM_SMOB_PREDICATE, SCM_SMOB_FLAGS, SCM_BOOL_F, h1, h2, h3, h4, h5]

/-- C1: for every pair of bridge objects `a` and `b` (both smobs of the
`opencog-misc` type) whose tags differ, `equalp_misc a b` returns false,
whatever the payloads are, and does not signal an error. -/
theorem equalp_misc_cross_tag {AV TV H E : Type} (T : CogTags) (N : Native AV TV H E)
    (cog_misc_tag : Nat) (a b : SCM)
    (ha : SCM_SMOB_PREDICATE cog_misc_tag a = true)
    (hb : SCM_SMOB_PREDICATE cog_misc_tag b = true)
    (hne : SCM_SMOB_FLAGS N a ≠ SCM_SMOB_FLAGS N b) :
    equalp_misc T N cog_misc_tag a b = Except.ok SCM_BOOL_F := by
  obtain ⟨fa, da, rfl, hfa, -⟩ := flags_of_smob N cog_misc_tag a ha
  obtain ⟨fb, db, rfl, hfb, -⟩ := flags_of_smob N cog_misc_tag b hb
  rw [hfa, hfb] at hne
  exact equalp_misc_ne T N cog_misc_tag fa da fb db hne

/-- Witness of C1: an AtomSpace object and an AttentionValue object with the
same payload bits. -/
theorem equalp_misc_cross_tag_witness :
    equalp_misc tags15 natNative 0 (SCM.smob 0 1 50) (SCM.smob 0 2 50)
      = Except.ok SCM_BOOL_F :=
  equalp_misc_cross_tag tags15 natNative 0 (SCM.smob 0 1 50) (SCM.smob 0 2 50)
    rfl rfl (by decide)

/-- C2: for every valid bridge object `a` (its tag is one of the five),
`equalp_misc a a` returns true; for the Handle tag, given that the native
equality of handles is reflexive. -/
theorem equalp_misc_refl {AV TV H E : Type} (T : CogTags) (N : Native AV TV H E)
    (cog_misc_tag : Nat) (a : SCM)
    (ha : SCM_SMOB_PREDICATE cog_misc_tag a = true)
    (hv : ValidTag T (SCM_SMOB_FLAGS N a))
    (hrefl : SCM_SMOB_FLAGS N a = T.COG_HANDLE → ∀ h, N.handleEq h h = true) :
    equalp_misc T N cog_misc_tag a a = Except.ok SCM_BOOL_T := by
  obtain ⟨f, d, rfl, hf, -⟩ := flags_of_smob N cog_misc_tag a ha
  rw [hf] at hv hrefl
  rcases hv with rfl | rfl | rfl | rfl | rfl
  · rw [equalp_misc_as]; simp [SCM_BOOL_T]
  · rw [equalp_misc_av]; simp [SCM_BOOL_T]
  · rw [equalp_misc_extend]; simp [SCM_BOOL_T]
  · rw [equalp_misc_handle, hrefl rfl]; rfl
  · rw [equalp_misc_tv]; simp [SCM_BOOL_T]

/-- Witness of C2: a Handle object. -/
theorem equalp_misc_refl_witness :
    equalp_misc tags15 natNative 0 (SCM.smob 0 4 77) (SCM.smob 0 4 77)
      = Except.ok SCM_BOOL_T :=
  equalp_misc_refl tags15 natNative 0 (SCM.smob 0 4 77) rfl
    (Or.inr (Or.inr (Or.inr (Or.inl rfl)))) (fun _ h => by simp [natNative])

/-- C3: for all bridge objects `a` and `b`, of equal or different tags,
`equalp_misc a b = equalp_misc b a`, given that the native equalities of
AttentionValue, TruthValue and Handle are symmetric. -/
theorem equalp_misc_symm {AV TV H E : Type} (T : CogTags) (N : Native AV TV H E)
    (cog_misc_tag : Nat) (a b : SCM)
    (ha : SCM_SMOB_PREDICATE cog_misc_tag a = true)
    (hb : SCM_SMOB_PREDICATE cog_misc_tag b = true)
    (hav : ∀ x y, N.avEq x y = N.avEq y x)
    (htv : ∀ x y, N.tvEq x y = N.tvEq y x)
    (hh : ∀ x y, N.handleEq x y = N.handleEq y x) :
    equalp_misc T N cog_misc_tag a b = equalp_misc T N cog_misc_tag b a := by
  obtain ⟨fa, da, rfl, -, -⟩ := flags_of_smob N cog_misc_tag a ha
  obtain ⟨fb, db, rfl, -, -⟩ := flags_of_smob N cog_misc_tag b hb
  by_cases hf : fa = fb
  · subst hf
    by_cases hv : ValidTag T fa
    · rcases hv with rfl | rfl | rfl | rfl | rfl
      · rw [equalp_misc_as, equalp_misc_as]; simp [eq_comm]
      · rw [equalp_misc_av, equalp_misc_av, hav]; simp [eq_comm]
      · rw [equalp_misc_extend, equalp_misc_extend]; simp [eq_comm]
      · rw [equalp_misc_handle, equalp_misc_handle, hh]
      · rw [equalp_misc_tv, equalp_misc_tv, htv]; simp [eq_comm]
    · rw [equalp_misc_default T N _ _ _ _ hv, equalp_misc_default T N _ _ _ _ hv]
  · rw [equalp_misc_ne T N _ _ _ _ _ hf, equalp_misc_ne T N _ _ _ _ _ (Ne.symm hf)]

/-- Witness of C3: two TruthValue objects at different addresses with equal
content, compared in both orders. -/
theorem equalp_misc_symm_witness :
    equalp_misc tags15 natNative 0 (SCM.smob 0 5 41) (SCM.smob 0 5 42)
      = equalp_misc tags15 natNative 0 (SCM.smob 0 5 42) (SCM.smob 0 5 41) :=
  equalp_misc_symm tags15 natNative 0 (SCM.smob 0 5 41) (SCM.smob 0 5 42) rfl rfl
    (fun x y => by simp [natNative, eq_comm])
    (fun x y => by simp [natNative, eq_comm])
    (fun x y => by simp [natNative, eq_comm])

/-- Transitivity of "same pointer, or equal under `eq` after dereferencing". -/
theorem ptr_or_eq_trans {α : Type} (eq : α → α → Bool) (at_ : Nat → α)
    (htrans : ∀ x y z, eq x y = true → eq y z = true → eq x z = true)
    (p q r : Nat)
    (h1 : (decide (p = q) || eq (at_ p) (at_ q)) = true)
    (h2 : (decide (q = r) || eq (at_ q) (at_ r)) = true) :
    (decide (p = r) || eq (at_ p) (at_ r)) = true := by
  simp only [Bool.or_eq_true, decide_eq_true_eq] at h1 h2 ⊢
  rcases h1 with rfl | h1
  · exact h2
  · rcases h2 with rfl | h2
    · exact Or.inr h1
    · exact Or.inr (htrans _ _ _ h1 h2)

/-- C4: within one valid tag, `equalp_misc` is transitive: for bridge objects
`a`, `b`, `c` of the same tag, if `equalp_misc a b` and `equalp_misc b c` are
true then `equalp_misc a c` is true, given that the native equalities of
AttentionValue, TruthValue and Handle are equivalence relations. -/
theorem equalp_misc_trans {AV TV H E : Type} (T : CogTags) (N : Native AV TV H E)
    (cog_misc_tag : Nat) (a b c : SCM)
    (ha : SCM_SMOB_PREDICATE cog_misc_tag a = true)
    (hb : SCM_SMOB_PREDICATE cog_misc_tag b = true)
    (hc : SCM_SMOB_PREDICATE cog_misc_tag c = true)
    (hv : ValidTag T (SCM_SMOB_FLAGS N a))
    (hab : SCM_SMOB_FLAGS N a = SCM_SMOB_FLAGS N b)
    (hbc : SCM_SMOB_FLAGS N b = SCM_SMOB_FLAGS N c)
    (hav : IsEquivalence N.avEq) (htv : IsEquivalence N.tvEq)
    (hh : IsEquivalence N.handleEq)
    (h1 : equalp_misc T N cog_misc_tag a b = Except.ok SCM_BOOL_T)
    (h2 : equalp_misc T N cog_misc_tag b c = Except.ok SCM_BOOL_T) :
    equalp_misc T N cog_misc_tag a c = Except.ok SCM_BOOL_T := by
  obtain ⟨fa, da, rfl, hfa, -⟩ := flags_of_smob N cog_misc_tag a ha
  obtain ⟨fb, db, rfl, hfb, -⟩ := flags_of_smob N cog_misc_tag b hb
  obtain ⟨fc, dc, rfl, hfc, -⟩ := flags_of_smob N cog_misc_tag c hc
  rw [hfa, hfb] at hab
  rw [hfb, hfc] at hbc
  rw [hfa] at hv
  subst hab
  subst hbc
  rcases hv with rfl | rfl | rfl | rfl | rfl
  · rw [equalp_misc_as] at h1 h2 ⊢
    simp only [SCM_BOOL_T, Except.ok.injEq, SCM.bool.injEq, decide_eq_true_eq] at h1 h2 ⊢
    exact h1.trans h2
  · rw [equalp_misc_av] at h1 h2 ⊢
    simp only [SCM_BOOL_T, Except.ok.injEq, SCM.bool.injEq] at h1 h2 ⊢
    exact ptr_or_eq_trans N.avEq N.avAt hav.2.2 da db dc h1 h2
  · rw [equalp_misc_extend] at h1 h2 ⊢
    simp only [SCM_BOOL_T, Except.ok.injEq, SCM.bool.injEq, decide_eq_true_eq] at h1 h2 ⊢
    exact h1.trans h2
  · rw [equalp_misc_handle] at h1 h2 ⊢
    simp only [SCM_BOOL_T, Except.ok.injEq, SCM.bool.injEq] at h1 h2 ⊢
    exact hh.2.2 _ _ _ h1 h2
  · rw [equalp_misc_tv] at h1 h2 ⊢
    simp only [SCM_BOOL_T, Except.ok.injEq, SCM.bool.injEq] at h1 h2 ⊢
    exact ptr_or_eq_trans N.tvEq N.tvAt htv.2.2 da db dc h1 h2

/-- Equality of numbers, decided by `==`, is an equivalence relation. -/
theorem nat_beq_isEquivalence : IsEquivalence (fun x y : Nat => x == y) := by
  refine ⟨fun x => by simp, fun x y h => ?_, fun x y z h1 h2 => ?_⟩
  · simp only [beq_iff_eq] at h ⊢
    exact h.symm
  · simp only [beq_iff_eq] at h1 h2 ⊢
    exact h1.trans h2

/-- Witness of C4: three AttentionValue objects at three addresses with equal
content. -/
theorem equalp_misc_trans_witness :
    equalp_misc tags15 natNative 0 (SCM.smob 0 2 41) (SCM.smob 0 2 49)
      = Except.ok SCM_BOOL_T :=
  equalp_misc_trans tags15 natNative 0 (SCM.smob 0 2 41) (SCM.smob 0 2 45) (SCM.smob 0 2 49)
    rfl rfl rfl (Or.inr (Or.inl rfl)) rfl rfl
    nat_beq_isEquivalence nat_beq_isEquivalence nat_beq_isEquivalence
    rfl rfl

/-- C5: for two Handle-tagged bridge objects `a` and `b`, with the handles of
the specification (identifier pairs compared by value), `equalp_misc a b` is
true if and only if the two handles name the same entity id in the same
workspace, and it is false otherwise; which cells hold the two objects plays
no part. -/
theorem equalp_misc_handle_iff {AV TV E : Type} (T : CogTags) (N : Native AV TV Handle E)
    (cog_misc_tag : Nat) (a b : SCM)
    (hspec : N.handleEq = Handle.eq)
    (ha : SCM_SMOB_PREDICATE cog_misc_tag a = true)
    (hb : SCM_SMOB_PREDICATE cog_misc_tag b = true)
    (hfa : SCM_SMOB_FLAGS N a = T.COG_HANDLE)
    (hfb : SCM_SMOB_FLAGS N b = T.COG_HANDLE) :
    (equalp_misc T N cog_misc_tag a b = Except.ok SCM_BOOL_T ↔
      ((N.scm_to_handle a).entity = (N.scm_to_handle b).entity ∧
        (N.scm_to_handle a).workspace = (N.scm_to_handle b).workspace)) ∧
    (((N.scm_to_handle a).entity ≠ (N.scm_to_handle b).entity ∨
        (N.scm_to_handle a).workspace ≠ (N.scm_to_handle b).workspace) →
      equalp_misc T N cog_misc_tag a b = Except.ok SCM_BOOL_F) := by
  obtain ⟨fa, da, rfl, hfa', -⟩ := flags_of_smob N cog_misc_tag a ha
  obtain ⟨fb, db, rfl, hfb', -⟩ := flags_of_smob N cog_misc_tag b hb
  rw [hfa'] at hfa
  rw [hfb'] at hfb
  subst hfa
  subst hfb
  rw [equalp_misc_handle, hspec]
  refine ⟨?_, fun h => ?_⟩
  · simp [SCM_BOOL_T, Handle.eq]
  · simp only [SCM_BOOL_F, Except.ok.injEq, SCM.bool.injEq, Handle.eq, Bool.and_eq_false_imp,
      beq_iff_eq, beq_eq_false_iff_ne, ne_eq]
    intro he
    rcases h with h | h
    · exact absurd he h
    · exact h

/-- Witness of C5: two objects that hold their handles at different
addresses, both handles naming entity 7 of workspace 1, are equal. -/
theorem equalp_misc_handle_iff_witness :
    equalp_misc tags15 specNative 0 (SCM.smob 0 4 100) (SCM.smob 0 4 200)
      = Except.ok SCM_BOOL_T :=
  (equalp_misc_handle_iff tags15 specNative 0 (SCM.smob 0 4 100) (SCM.smob 0 4 200)
    rfl rfl rfl rfl rfl).1.2 ⟨rfl, rfl⟩

/-- The verdict "same pointer, or equal after dereferencing", read as a
statement about the two pointers. -/
theorem ptr_or_eq_verdict {E : Type} (p q : Nat) (e : Bool) :
    ((Except.ok (SCM.bool (decide (p = q) || e)) : Except E SCM) = Except.ok SCM_BOOL_T ↔
        (p = q ∨ e = true)) ∧
    (¬ (p = q ∨ e = true) →
      (Except.ok (SCM.bool (decide (p = q) || e)) : Except E SCM) = Except.ok SCM_BOOL_F) := by
  refine ⟨?_, fun h => ?_⟩
  · simp [SCM_BOOL_T]
  · simp only [not_or] at h
    simp [SCM_BOOL_F, h.1, h.2]

/-- C6: for two bridge objects `a` and `b` that are both AttentionValue-tagged
or both TruthValue-tagged, `equalp_misc a b` is true exactly when the two
payload pointers are the same or the native objects they point to are equal
under the native equality, and false otherwise.  In particular two objects at
different addresses that the native equality holds equal compare equal, and
so do two objects at different addresses with identical content when the
native equality holds every object equal to itself. -/
theorem equalp_misc_value {AV TV H E : Type} (T : CogTags) (N : Native AV TV H E)
    (cog_misc_tag : Nat) (a b : SCM)
    (ha : SCM_SMOB_PREDICATE cog_misc_tag a = true)
    (hb : SCM_SMOB_PREDICATE cog_misc_tag b = true) :
    (SCM_SMOB_FLAGS N a = T.COG_AV → SCM_SMOB_FLAGS N b = T.COG_AV →
      (equalp_misc T N cog_misc_tag a b = Except.ok SCM_BOOL_T ↔
        (SCM_SMOB_DATA N a = SCM_SMOB_DATA N b ∨
          N.avEq (N.avAt (SCM_SMOB_DATA N a)) (N.avAt (SCM_SMOB_DATA N b)) = true)) ∧
      (¬ (SCM_SMOB_DATA N a = SCM_SMOB_DATA N b ∨
          N.avEq (N.avAt (SCM_SMOB_DATA N a)) (N.avAt (SCM_SMOB_DATA N b)) = true) →
        equalp_misc T N cog_misc_tag a b = Except.ok SCM_BOOL_F) ∧
      (SCM_SMOB_DATA N a ≠ SCM_SMOB_DATA N b → (∀ v, N.avEq v v = true) →
        N.avAt (SCM_SMOB_DATA N a) = N.avAt (SCM_SMOB_DATA N b) →
        equalp_misc T N cog_misc_tag a b = Except.ok SCM_BOOL_T)) ∧
    (SCM_SMOB_FLAGS N a = T.COG_TV → SCM_SMOB_FLAGS N b = T.COG_TV →
      (equalp_misc T N cog_misc_tag a b = Except.ok SCM_BOOL_T ↔
        (SCM_SMOB_DATA N a = SCM_SMOB_DATA N b ∨
          N.tvEq (N.tvAt (SCM_SMOB_DATA N a)) (N.tvAt (SCM_SMOB_DATA N b)) = true)) ∧
      (¬ (SCM_SMOB_DATA N a = SCM_SMOB_DATA N b ∨
          N.tvEq (N.tvAt (SCM_SMOB_DATA N a)) (N.tvAt (SCM_SMOB_DATA N b)) = true) →
        equalp_misc T N cog_misc_tag a b = Except.ok SCM_BOOL_F) ∧
      (SCM_SMOB_DATA N a ≠ SCM_SMOB_DATA N b → (∀ v, N.tvEq v v = true) →
        N.tvAt (SCM_SMOB_DATA N a) = N.tvAt (SCM_SMOB_DATA N b) →
        equalp_misc T N cog_misc_tag a b = Except.ok SCM_BOOL_T)) := by
  obtain ⟨fa, da, rfl, hfa, hda⟩ := flags_of_smob N cog_misc_tag a ha
  obtain ⟨fb, db, rfl, hfb, hdb⟩ := flags_of_smob N cog_misc_tag b hb
  rw [hfa, hfb, hda, hdb]
  refine ⟨?_, ?_⟩
  · rintro rfl rfl
    rw [equalp_misc_av]
    refine ⟨(ptr_or_eq_verdict da db _).1, (ptr_or_eq_verdict da db _).2, ?_⟩
    intro _ hrefl hsame
    rw [hsame, hrefl]
    simp [SCM_BOOL_T]
  · rintro rfl rfl
    rw [equalp_misc_tv]
    refine ⟨(ptr_or_eq_verdict da db _).1, (ptr_or_eq_verdict da db _).2, ?_⟩
    intro _ hrefl hsame
    rw [hsame, hrefl]
    simp [SCM_BOOL_T]

/-- Witness of C6: two TruthValue objects at the addresses 41 and 42, which
hold the same native content, compare equal. -/
theorem equalp_misc_value_witness :
    equalp_misc tags15 natNative 0 (SCM.smob 0 5 41) (SCM.smob 0 5 42)
      = Except.ok SCM_BOOL_T :=
  ((equalp_misc_value tags15 natNative 0 (SCM.smob 0 5 41) (SCM.smob 0 5 42)
    rfl rfl).2 rfl rfl).2.2 (by decide) (fun v => by simp [natNative]) rfl

/-- C7: for two bridge objects `a` and `b` that are both AtomSpace-tagged or
both Extend-tagged, `equalp_misc a b` is true if and only if the two payload
pointers are the same, and false otherwise.  The objects pointed to are not
looked at: whatever the content `objAt` of the native memory is, two
different pointers compare unequal, also when the content at both is the
same. -/
theorem equalp_misc_identity {AV TV H E : Type} (T : CogTags) (N : Native AV TV H E)
    (cog_misc_tag : Nat) (a b : SCM)
    (ha : SCM_SMOB_PREDICATE cog_misc_tag a = true)
    (hb : SCM_SMOB_PREDICATE cog_misc_tag b = true)
    (hf : (SCM_SMOB_FLAGS N a = T.COG_AS ∧ SCM_SMOB_FLAGS N b = T.COG_AS) ∨
      (SCM_SMOB_FLAGS N a = T.COG_EXTEND ∧ SCM_SMOB_FLAGS N b = T.COG_EXTEND)) :
    (equalp_misc T N cog_misc_tag a b = Except.ok SCM_BOOL_T ↔
      SCM_SMOB_DATA N a = SCM_SMOB_DATA N b) ∧
    (SCM_SMOB_DATA N a ≠ SCM_SMOB_DATA N b →
      equalp_misc T N cog_misc_tag a b = Except.ok SCM_BOOL_F) ∧
    (∀ (C : Type) (objAt : Nat → C), SCM_SMOB_DATA N a ≠ SCM_SMOB_DATA N b →
      objAt (SCM_SMOB_DATA N a) = objAt (SCM_SMOB_DATA N b) →
      equalp_misc T N cog_misc_tag a b = Except.ok SCM_BOOL_F) := by
  obtain ⟨fa, da, rfl, hfa, hda⟩ := flags_of_smob N cog_misc_tag a ha
  obtain ⟨fb, db, rfl, hfb, hdb⟩ := flags_of_smob N cog_misc_tag b hb
  rw [hfa, hfb] at hf
  rw [hda, hdb]
  have key : equalp_misc T N cog_misc_tag (SCM.smob cog_misc_tag fa da)
      (SCM.smob cog_misc_tag fb db) = Except.ok (SCM.bool (decide (da = db))) := by
    rcases hf with ⟨rfl, rfl⟩ | ⟨rfl, rfl⟩
    · exact equalp_misc_as T N cog_misc_tag da db
    · exact equalp_misc_extend T N cog_misc_tag da db
  rw [key]
  refine ⟨?_, fun h => ?_, fun _ _ h _ => ?_⟩
  · simp [SCM_BOOL_T]
  · simp [SCM_BOOL_F, h]
  · simp [SCM_BOOL_F, h]

/-- Witness of C7: two AtomSpace objects whose pointers 41 and 42 differ
compare unequal, although the content at both addresses is the same. -/
theorem equalp_misc_identity_witness :
    equalp_misc tags15 natNative 0 (SCM.smob 0 1 41) (SCM.smob 0 1 42)
      = Except.ok SCM_BOOL_F :=
  (equalp_misc_identity tags15 natNative 0 (SCM.smob 0 1 41) (SCM.smob 0 1 42)
    rfl rfl (Or.inl ⟨rfl, rfl⟩)).2.2 Nat (fun p => p / 10) (by decide) (by decide)

/-! ## Registration and initialisation -/

/-- Modifying the last element of a list. -/
theorem modify_append_last {α : Type} (f : α → α) (l : List α) (x : α) :
    (l ++ [x]).modify f l.length = l ++ [f x] := by
  induction l with
  | nil => rfl
  | cons y l ih => simp [ih]

/-- One run of `register_procs` adds the primitives `registered` to the
definitions of the host. -/
theorem register_procs_gsubrs (h : Host) :
    (register_procs h).gsubrs = h.gsubrs ++ registered := by
  simp [register_procs, registered, scm_c_define_gsubr, emptyHost]

/-- The function `register_procs` writes nothing but definitions of primitives. -/
theorem register_procs_rest (h : Host) :
    (register_procs h).smobs = h.smobs ∧ (register_procs h).fluids = h.fluids ∧
      (register_procs h).permanent = h.permanent := by
  simp [register_procs, scm_c_define_gsubr]

/-- Once the flag is set, `init` changes nothing. -/
theorem init_of_inited (w : Nat) (t : State) (ht : t.is_inited = true) : init w t = t := by
  simp [init, ht]

/-- The state that the first call of `init` leaves. -/
theorem init_first (w : Nat) (s : State) (hs : s.is_inited = false) :
    init w s =
      { cog_misc_tag := s.host.smobs.length,
        is_inited := true,
        _radix_ten := SCM.int 10,
        atomspace_fluid := SCM.fluid s.host.fluids,
        host :=
          { smobs := s.host.smobs ++ [cogMiscType w],
            gsubrs := s.host.gsubrs ++ registered,
            fluids := s.host.fluids + 1,
            permanent := s.host.permanent ++ [SCM.fluid s.host.fluids] } } := by
  have hr := register_procs_rest
  have hg := register_procs_gsubrs
  simp [init, hs, init_smob_type, scm_make_smob_type, scm_set_smob_print, scm_set_smob_equalp,
    scm_set_smob_free, scm_make_fluid, scm_permanent_object, scm_from_int8, hr, hg,
    modify_append_last, cogMiscType]

/-- Calls of `init` on a state whose flag is set change nothing. -/
theorem initTimes_of_inited (w n : Nat) (t : State) (ht : t.is_inited = true) :
    initTimes w n t = t := by
  induction n with
  | zero => rfl
  | succ n ih => rw [initTimes, init_of_inited w t ht, ih]

/-- Each registered primitive is what its name is bound to after one run of
`register_procs` on the empty host. -/
theorem registered_find :
    ∀ g ∈ registered, registered.reverse.find? (fun x => x.name == g.name) = some g := by
  decide

/-- C8, as the specification states it, fails: the registration is not the
table of section 6 as it stands.  The table lists `new-stv`, and no primitive
of that name is registered; the primitive is registered as `cog-new-stv`,
which the table does not list. -/
theorem register_procs_not_table :
    ¬ MatchesTable registered specTable ∧
    lookupGsubr (register_procs emptyHost) "new-stv" = none ∧
    lookupGsubr (register_procs emptyHost) "cog-new-stv"
      = some { name := "cog-new-stv", req := 2, opt := 0, rst := 0, fcn := "ss_new_stv" } ∧
    (∀ r ∈ specTable, r.name ≠ "cog-new-stv") := by
  decide

/-- C8, amended: the operations registered by `register_procs` are exactly
those of the table of section 6 with `cog-` put before each name, with the
arity triples of the table: every entry of the table has a registered
primitive of the name `cog-` followed by the name of the entry with exactly
that arity triple, no other primitive is registered, and each entry
corresponds to one registration (the two lists are permutations of each
other).  For example `cog-new-stv` is 2/0/no-rest, `cog-new-atomspace` is
0/1/no-rest, `cog-new-node` is 2/0/rest, `cog-new-link` is 1/0/rest and
`cog-undefined-handle` is 0/0/no-rest. -/
theorem register_procs_cog_table :
    MatchesTable registered (specTable.map TableRow.cog) ∧
    List.Perm (registered.map Gsubr.contract) (specTable.map TableRow.cog) ∧
    (lookupGsubr (register_procs emptyHost) "cog-new-stv").map Gsubr.contract
      = some { name := "cog-new-stv", required := 2, optional := 0, rest := false } ∧
    (lookupGsubr (register_procs emptyHost) "cog-new-atomspace").map Gsubr.contract
      = some { name := "cog-new-atomspace", required := 0, optional := 1, rest := false } ∧
    (lookupGsubr (register_procs emptyHost) "cog-new-node").map Gsubr.contract
      = some { name := "cog-new-node", required := 2, optional := 0, rest := true } ∧
    (lookupGsubr (register_procs emptyHost) "cog-new-link").map Gsubr.contract
      = some { name := "cog-new-link", required := 1, optional := 0, rest := true } ∧
    (lookupGsubr (register_procs emptyHost) "cog-undefined-handle").map Gsubr.contract
      = some { name := "cog-undefined-handle", required := 0, optional := 0, rest := false } := by
  decide

/-- C9: initialisation is idempotent.  From a state in which `init` has not
run, `n` calls of `init` with `n ≥ 1` leave the state that one call leaves.
In that state the flag is set, the smob type `opencog-misc` has been created
once (one more smob type in the host, with its three hooks, and
`cog_misc_tag` is its tag), the primitives have been defined once (the
definitions of the host grew by `registered`), one fluid has been created,
made permanent and stored in `atomspace_fluid`; and `init` changes nothing
in a state whose flag is set. -/
theorem init_idempotent (sizeof_bits : Nat) (s : State) (n : Nat)
    (hs : s.is_inited = false) (hn : 1 ≤ n) :
    initTimes sizeof_bits n s = init sizeof_bits s ∧
    (initTimes sizeof_bits n s).is_inited = true ∧
    (initTimes sizeof_bits n s).cog_misc_tag = s.host.smobs.length ∧
    (initTimes sizeof_bits n s).host.smobs = s.host.smobs ++ [cogMiscType sizeof_bits] ∧
    (initTimes sizeof_bits n s).host.gsubrs = s.host.gsubrs ++ registered ∧
    (initTimes sizeof_bits n s).host.fluids = s.host.fluids + 1 ∧
    (initTimes sizeof_bits n s).atomspace_fluid = SCM.fluid s.host.fluids ∧
    (initTimes sizeof_bits n s).host.permanent
      = s.host.permanent ++ [SCM.fluid s.host.fluids] ∧
    (∀ t : State, t.is_inited = true → init sizeof_bits t = t) := by
  obtain ⟨m, rfl⟩ : ∃ m, n = m + 1 := ⟨n - 1, by omega⟩
  have hfirst := init_first sizeof_bits s hs
  have hflag : (init sizeof_bits s).is_inited = true := by rw [hfirst]
  have hall : initTimes sizeof_bits (m + 1) s = init sizeof_bits s := by
    rw [initTimes, initTimes_of_inited sizeof_bits m _ hflag]
  rw [hall]
  refine ⟨rfl, hflag, ?_, ?_, ?_, ?_, ?_, ?_, fun t ht => init_of_inited sizeof_bits t ht⟩ <;>
    rw [hfirst]

/-- Witness of C9: three calls of `init` on a state in which it has not run,
in a host that already has a smob type, a primitive and two fluids. -/
theorem init_idempotent_witness :
    initTimes 8 3 freshState = init 8 freshState ∧
    (initTimes 8 3 freshState).host.smobs.length = 2 ∧
    (initTimes 8 3 freshState).host.gsubrs.length = 50 ∧
    (initTimes 8 3 freshState).host.fluids = 3 := by
  have h := init_idempotent 8 freshState 3 rfl (by decide)
  refine ⟨h.1, ?_, ?_, ?_⟩
  · rw [h.2.2.2.1]; rfl
  · rw [h.2.2.2.2.1]; rfl
  · rw [h.2.2.2.2.2.1]; rfl

/-- C10: the names that one run of `register_procs` defines contain no
duplicates.  The run adds its 49 definitions to those of the host, each name
is defined exactly once, and after the run each of the names is bound to the
primitive that the run defined for it: no later definition of the run has
replaced an earlier one. -/
theorem register_procs_names_nodup :
    (registered.map Gsubr.name).Nodup ∧
    registered.length = 49 ∧
    (∀ g ∈ registered, (registered.map Gsubr.name).count g.name = 1) ∧
    (∀ h : Host, (register_procs h).gsubrs = h.gsubrs ++ registered ∧
      ∀ g ∈ registered, lookupGsubr (register_procs h) g.name = some g) := by
  refine ⟨by decide, by decide, by decide, fun h => ⟨register_procs_gsubrs h, fun g hg => ?_⟩⟩
  rw [lookupGsubr, register_procs_gsubrs, List.reverse_append, List.find?_append,
    registered_find g hg]
  rfl

end SchemeSmob
